import Mathlib

/-!
# `ww::WindowBase` (include/window.hpp): dispatcher, registrar and passthroughs

A shallow embedding of the C++ header.  The Win32 entry points the header calls
are external to the repository; they appear here as the fields of an environment
`Env`, together with the derived class's `ClassName` and `HandleMessage`.  The
program's own effects (the `Handle` member, the `GWLP_USERDATA` slot, the order
and arguments of the external calls) are modelled explicitly.
-/

namespace ww

/-! ## Machine words

Pointers, handles and `LONG_PTR` values are machine words, kept as their bit
pattern (`Nat`, `0` is `NULL`); the casts between them in the source are the
identity on that pattern.  Signed C integers are `Int`. -/

abbrev HWND := Nat
abbrev HMENU := Nat
abbrev HINSTANCE := Nat
abbrev Ptr := Nat
abbrev LONG_PTR := Nat
abbrev UINT := Nat
abbrev DWORD := Nat
abbrev LONG := Int
abbrev WPARAM := Nat
abbrev LPARAM := Nat
abbrev LRESULT := Int
abbrev BOOL := Int
abbrev ATOM := Nat
/-- A C string pointer: `none` is `NULL`. -/
abbrev LPCTSTR := Option String

/-- Windows SDK value of `WM_NCCREATE`. -/
def WM_NCCREATE : UINT := 0x0081
/-- Windows SDK value of `GWLP_USERDATA`. -/
def GWLP_USERDATA : Int := -21
/-- Windows SDK value of `CW_USEDEFAULT`, `((int)0x80000000)`. -/
def CW_USEDEFAULT : Int := -2147483648
/-- Windows SDK value of `WS_OVERLAPPEDWINDOW`. -/
def WS_OVERLAPPEDWINDOW : LONG := 0x00CF0000
/-- Windows SDK value of `SW_SHOW`. -/
def SW_SHOW : Int := 5
def TRUE : BOOL := 1
def FALSE : BOOL := 0

/-- Implicit conversion of a `LONG` argument to a `DWORD` parameter: the value
modulo `2^32`, that is the same 32-bit pattern. -/
def toDWORD (v : LONG) : DWORD := (v % 4294967296).toNat

/-! ## Data -/

/-- The `ww::CreateStruct` record, with the defaults of the source. -/
structure CreateStruct where
  Name : LPCTSTR
  Width : Int := CW_USEDEFAULT
  Height : Int := CW_USEDEFAULT
  X : Int := CW_USEDEFAULT
  Y : Int := CW_USEDEFAULT
  Parent : HWND := 0
  Style : LONG := WS_OVERLAPPEDWINDOW
  Menu : HMENU := 0
  ExStyle : DWORD := 0
deriving DecidableEq, Repr

/-- The Win32 `CREATESTRUCT` as far as the program reads it: `WindowProc` only
reads the `lpCreateParams` member. -/
structure CREATESTRUCT where
  lpCreateParams : Ptr
deriving DecidableEq, Repr

/-- A window procedure pointer: `NULL`, or the address of `Derived::WindowProc`. -/
inductive WNDPROC where
  | null
  | WindowProc
deriving DecidableEq, Repr

/-- The Win32 `WNDCLASSEX` class descriptor, all twelve members. -/
structure WNDCLASSEX where
  cbSize : UINT
  style : UINT
  lpfnWndProc : WNDPROC
  cbClsExtra : Int
  cbWndExtra : Int
  hInstance : HINSTANCE
  hIcon : Nat
  hCursor : Nat
  hbrBackground : Nat
  lpszMenuName : LPCTSTR
  lpszClassName : LPCTSTR
  hIconSm : Nat
deriving DecidableEq, Repr

/-- The descriptor after `wcx = {0}`. -/
def WNDCLASSEX.zero : WNDCLASSEX :=
  ⟨0, 0, WNDPROC.null, 0, 0, 0, 0, 0, 0, none, none, 0⟩

/-- The twelve arguments of `CreateWindowEx`, in the order of its signature. -/
structure CreateWindowExArgs where
  dwExStyle : DWORD
  lpClassName : LPCTSTR
  lpWindowName : LPCTSTR
  dwStyle : DWORD
  X : Int
  Y : Int
  nWidth : Int
  nHeight : Int
  hWndParent : HWND
  hMenu : HMENU
  hInstance : HINSTANCE
  lpParam : Ptr
deriving DecidableEq, Repr

/-- One external call made by the header's own code, with its arguments. -/
inductive Call where
  | GetClassInfoEx (hInstance : HINSTANCE) (lpszClass : LPCTSTR)
  | RegisterClassEx (wcx : WNDCLASSEX)
  | CreateWindowEx (args : CreateWindowExArgs)
  | ShowWindow (hWnd : HWND) (nCmdShow : Int)
  | SetWindowLongPtr (hWnd : HWND) (nIndex : Int) (dwNewLong : LONG_PTR)
  | GetWindowLongPtr (hWnd : HWND) (nIndex : Int)
  | DefWindowProc (hWnd : HWND) (Msg : UINT) (wParam : WPARAM) (lParam : LPARAM)
  | HandleMessage (Instance : Ptr) (Message : UINT) (WParam : WPARAM) (LParam : LPARAM)
deriving DecidableEq, Repr

/-- The process state that the program and its callbacks read and write. -/
structure Machine where
  /-- The `GWLP_USERDATA` slot of every window handle. -/
  userData : HWND → LONG_PTR
  /-- The `Handle` member of the `WindowBase` object at every address. -/
  handleOf : Ptr → HWND
  /-- The memory read through a `CREATESTRUCT *`. -/
  payload : LPARAM → CREATESTRUCT
  /-- The window classes registered with the system. -/
  classes : List WNDCLASSEX

/-- The machine together with the record of the external calls made so far by
the header's code (most recent last).  Callbacks act on the machine only. -/
structure World where
  m : Machine
  trace : List Call

/-- The single way the program can go wrong in this model: a read or write
through a null pointer.  Every non-null address is taken to hold an object;
object lifetime is not modelled, and `this` always designates an object. -/
inductive Fault where
  | nullDereference
deriving DecidableEq, Repr

/-- Everything the header takes from outside: the derived class (`ClassName`,
`HandleMessage`) and the Win32 functions it calls.  The class-registry functions
act on the registry only; the others may run arbitrary code on the machine. -/
structure Env where
  ClassName : LPCTSTR
  HandleMessage : Ptr → UINT → WPARAM → LPARAM → Machine → LRESULT × Machine
  GetModuleHandle : LPCTSTR → HINSTANCE
  sizeof_WNDCLASSEX : UINT
  GetClassInfoEx : HINSTANCE → LPCTSTR → List WNDCLASSEX → Option WNDCLASSEX
  RegisterClassEx : WNDCLASSEX → List WNDCLASSEX → ATOM × List WNDCLASSEX
  CreateWindowEx : CreateWindowExArgs → Machine → HWND × Machine
  ShowWindow : HWND → Int → Machine → BOOL × Machine
  DefWindowProc : HWND → UINT → WPARAM → LPARAM → Machine → LRESULT × Machine

/-! ## Primitive effects -/

/-- The slot write of `SetWindowLongPtr(hWnd, GWLP_USERDATA, v)` on a machine. -/
def Machine.setUserData (m : Machine) (hWnd : HWND) (v : LONG_PTR) : Machine :=
  { m with userData := Function.update m.userData hWnd v }

/-- `SetWindowLongPtr(hWnd, nIndex, v)`: stores `v` in the slot of `hWnd`
(only the `GWLP_USERDATA` index is modelled) and records the call. -/
def SetWindowLongPtr (hWnd : HWND) (nIndex : Int) (v : LONG_PTR) (w : World) : World :=
  { m := if nIndex = GWLP_USERDATA then w.m.setUserData hWnd v else w.m
    trace := w.trace ++ [Call.SetWindowLongPtr hWnd nIndex v] }

/-- `GetWindowLongPtr(hWnd, nIndex)`: reads the slot of `hWnd` and records the call. -/
def GetWindowLongPtr (hWnd : HWND) (nIndex : Int) (w : World) : LONG_PTR × World :=
  (if nIndex = GWLP_USERDATA then w.m.userData hWnd else 0,
   { w with trace := w.trace ++ [Call.GetWindowLongPtr hWnd nIndex] })

/-- The assignment `p->Handle = h` on a machine. -/
def Machine.setHandle (m : Machine) (p : Ptr) (h : HWND) : Machine :=
  { m with handleOf := Function.update m.handleOf p h }

/-- The system lays a creation payload out at address `lp`. -/
def Machine.setPayload (m : Machine) (lp : LPARAM) (c : CREATESTRUCT) : Machine :=
  { m with payload := Function.update m.payload lp c }

/-- Run an external callback on the machine and record the call. -/
def World.call {α : Type} (w : World) (c : Call) (f : Machine → α × Machine) : α × World :=
  ((f w.m).1, { m := (f w.m).2, trace := w.trace ++ [c] })

/-! ## The program -/

/-- `WindowBase::WindowProc`. -/
def WindowProc (env : Env) (Handle : HWND) (Message : UINT) (WParam : WPARAM)
    (LParam : LPARAM) (w : World) : Except Fault (LRESULT × World) :=
  let bound : Except Fault (Ptr × World) :=
    if Message = WM_NCCREATE then
      -- CREATESTRUCT *Create = (CREATESTRUCT *)LParam; Create->lpCreateParams
      if LParam = 0 then Except.error Fault.nullDereference
      else
        let Instance : Ptr := (w.m.payload LParam).lpCreateParams
        let w1 := SetWindowLongPtr Handle GWLP_USERDATA Instance w
        -- Instance->Handle = Handle
        if Instance = 0 then Except.error Fault.nullDereference
        else Except.ok (Instance, { w1 with m := w1.m.setHandle Instance Handle })
    else
      Except.ok (GetWindowLongPtr Handle GWLP_USERDATA w)
  match bound with
  | Except.error e => Except.error e
  | Except.ok (Instance, w2) =>
    if Instance ≠ 0 then
      Except.ok (w2.call (Call.HandleMessage Instance Message WParam LParam)
        (env.HandleMessage Instance Message WParam LParam))
    else
      Except.ok (w2.call (Call.DefWindowProc Handle Message WParam LParam)
        (env.DefWindowProc Handle Message WParam LParam))

/-- The descriptor the constructor fills in: `wcx = {0}` followed by its four
member assignments. -/
def classDescriptor (env : Env) : WNDCLASSEX :=
  { WNDCLASSEX.zero with
    cbSize := env.sizeof_WNDCLASSEX
    lpszClassName := env.ClassName
    lpfnWndProc := WNDPROC.WindowProc
    hInstance := env.GetModuleHandle none }

/-- The constructor `WindowBase::WindowBase()` run for the object at `this`. -/
def WindowBase (env : Env) (this : Ptr) (w : World) : World :=
  -- the member initialiser Handle{0}
  let m0 := w.m.setHandle this 0
  let t1 := w.trace ++ [Call.GetClassInfoEx (env.GetModuleHandle none) env.ClassName]
  match env.GetClassInfoEx (env.GetModuleHandle none) env.ClassName m0.classes with
  | some _ => { m := m0, trace := t1 }
  | none =>
    let wcx := classDescriptor env
    { m := { m0 with classes := (env.RegisterClassEx wcx m0.classes).2 }
      trace := t1 ++ [Call.RegisterClassEx wcx] }

/-- The arguments `WindowBase::Create` hands to `CreateWindowEx`. -/
def createArgs (env : Env) (this : Ptr) (Params : CreateStruct) : CreateWindowExArgs :=
  { dwExStyle := Params.ExStyle
    lpClassName := env.ClassName
    lpWindowName := Params.Name
    dwStyle := toDWORD Params.Style
    X := Params.X
    Y := Params.Y
    nWidth := Params.Width
    nHeight := Params.Height
    hWndParent := Params.Parent
    hMenu := Params.Menu
    hInstance := env.GetModuleHandle none
    lpParam := this }

/-- `WindowBase::Create` run on the object at `this`. -/
def Create (env : Env) (this : Ptr) (Params : CreateStruct) (w : World) : BOOL × World :=
  let args := createArgs env this Params
  let r := w.call (Call.CreateWindowEx args) (env.CreateWindowEx args)
  -- Handle = CreateWindowEx(...)
  let w1 : World := { r.2 with m := r.2.m.setHandle this r.1 }
  (if w1.m.handleOf this ≠ 0 then TRUE else FALSE, w1)

/-- `WindowBase::Show` run on the object at `this`; a `BOOL` converts to `bool`
as "non-zero". -/
def Show (env : Env) (this : Ptr) (CmdShow : Int) (w : World) : Bool × World :=
  let Handle := w.m.handleOf this
  let r := w.call (Call.ShowWindow Handle CmdShow) (env.ShowWindow Handle CmdShow)
  (decide (r.1 ≠ 0), r.2)

/-! ## Observations on traces and machines -/

/-- The handles whose slot the trace writes, in order. -/
def slotWrites : List Call → List HWND
  | [] => []
  | Call.SetWindowLongPtr hWnd _ _ :: t => hWnd :: slotWrites t
  | _ :: t => slotWrites t

/-- The number of `RegisterClassEx` calls in a trace. -/
def registerCalls : List Call → Nat
  | [] => 0
  | Call.RegisterClassEx _ :: t => registerCalls t + 1
  | _ :: t => registerCalls t

/-- The number of registered classes with the given module and name. -/
def classCount (hInstance : HINSTANCE) (name : LPCTSTR) (reg : List WNDCLASSEX) : Nat :=
  (reg.filter (fun c => decide (c.hInstance = hInstance ∧ c.lpszClassName = name))).length

/-- Two machines agree on every slot and every `Handle` member. -/
def Quiet (m m' : Machine) : Prop :=
  m'.userData = m.userData ∧ m'.handleOf = m.handleOf

/-- Bound identity: every receiver with a non-null `Handle` is the content of
that handle's slot. -/
def BoundIdentity (m : Machine) : Prop :=
  ∀ r : Ptr, r ≠ 0 → m.handleOf r ≠ 0 → m.userData (m.handleOf r) = r

/-- The implicitly generated copy constructor and copy assignment of
`WindowBase` (the class declares neither, so the compiler supplies both): the
object at `this` receives a memberwise copy of the `Handle` of the object at
`other`.  No external call is made and no slot is written. -/
def WindowBase_copy (this other : Ptr) (w : World) : World :=
  { w with m := w.m.setHandle this (w.m.handleOf other) }

/-- The operations of the header, as requests. -/
inductive Op where
  | WindowBase (this : Ptr)
  | copy (this other : Ptr)
  | Create (this : Ptr) (Params : CreateStruct)
  | Show (this : Ptr) (CmdShow : Int)
  | WindowProc (Handle : HWND) (Message : UINT) (WParam : WPARAM) (LParam : LPARAM)

/-- Run one operation. -/
def step (env : Env) (op : Op) (w : World) : Except Fault World :=
  match op with
  | Op.WindowBase this => Except.ok (WindowBase env this w)
  | Op.copy this other => Except.ok (WindowBase_copy this other w)
  | Op.Create this Params => Except.ok (Create env this Params w).2
  | Op.Show this CmdShow => Except.ok (Show env this CmdShow w).2
  | Op.WindowProc Handle Message WParam LParam =>
    match WindowProc env Handle Message WParam LParam w with
    | Except.ok r => Except.ok r.2
    | Except.error e => Except.error e

/-- Run a sequence of operations, stopping at the first fault. -/
def run (env : Env) : List Op → World → Except Fault World
  | [], w => Except.ok w
  | op :: ops, w =>
    match step env op w with
    | Except.ok w1 => run env ops w1
    | Except.error e => Except.error e

/-- The callbacks of the environment that run user or system code on a
message (`HandleMessage`, `DefWindowProc`, `ShowWindow`) leave every slot and
every `Handle` member as they find them, from every machine. -/
def QuietCallbacks (env : Env) : Prop :=
  (∀ p msg wp lp m, Quiet m (env.HandleMessage p msg wp lp m).2) ∧
  (∀ h msg wp lp m, Quiet m (env.DefWindowProc h msg wp lp m).2) ∧
  (∀ h cmd m, Quiet m (env.ShowWindow h cmd m).2)

/-- The handle `h`, if non-null, is held by no receiver other than `r0`. -/
def Unheld (m : Machine) (h : HWND) (r0 : Ptr) : Prop :=
  ∀ r, r ≠ 0 → r ≠ r0 → m.handleOf r = h → h = 0

/-- The call `CreateWindowEx(args)` from machine `m` delivers the creation
message: for some handle `hNew` that no other receiver holds, the system lays
the creation payload carrying `args.lpParam` out at some address, sends
`WM_NCCREATE` for `hNew` through `WindowProc`, which returns; whatever else the
call does leaves slots and `Handle` members unchanged; and the call returns
`hNew` or null. -/
def DeliversCreation (env : Env) (args : CreateWindowExArgs) (m : Machine) : Prop :=
  ∃ (hNew : HWND) (wp : WPARAM) (lp : LPARAM) (res : LRESULT) (w1 : World),
    Unheld m hNew args.lpParam ∧
    WindowProc env hNew WM_NCCREATE wp lp ⟨m.setPayload lp ⟨args.lpParam⟩, []⟩
      = Except.ok (res, w1) ∧
    Quiet w1.m (env.CreateWindowEx args m).2 ∧
    ((env.CreateWindowEx args m).1 = hNew ∨ (env.CreateWindowEx args m).1 = 0)

/-- The states reached, from one in which no receiver holds a handle, by the
header's operations under the creation protocol: default construction, a copy
of a receiver whose `Handle` is null, `Show`, any dispatcher call that returns
(a creation message being for a handle no other receiver holds), and `Create`
when its `CreateWindowEx` call delivers the creation message.  Every step is
the operation's own output. -/
inductive Reach (env : Env) : Machine → Prop where
  | init (m : Machine) : (∀ p, m.handleOf p = 0) → Reach env m
  | construct (m : Machine) (this : Ptr) (t : List Call) :
      Reach env m → Reach env (WindowBase env this ⟨m, t⟩).m
  | copy (m : Machine) (this other : Ptr) (t : List Call) :
      Reach env m → m.handleOf other = 0 →
      Reach env (WindowBase_copy this other ⟨m, t⟩).m
  | display (m : Machine) (this : Ptr) (CmdShow : Int) (t : List Call) :
      Reach env m → Reach env (Show env this CmdShow ⟨m, t⟩).2.m
  | dispatch (m : Machine) (Handle : HWND) (Message : UINT) (WParam : WPARAM)
      (LParam : LPARAM) (t : List Call) (res : LRESULT) (w' : World) :
      Reach env m →
      WindowProc env Handle Message WParam LParam ⟨m, t⟩ = Except.ok (res, w') →
      (Message = WM_NCCREATE → Unheld m Handle (m.payload LParam).lpCreateParams) →
      Reach env w'.m
  | create (m : Machine) (this : Ptr) (Params : CreateStruct) (t : List Call) :
      Reach env m →
      DeliversCreation env (createArgs env this Params) m →
      Reach env (Create env this Params ⟨m, t⟩).2.m

/-! ## Test doubles -/

/-- A fake window handle. -/
def H_OK : HWND := 1

/-- A machine with empty slots, null `Handle` members and no classes; the
creation payload at address 64 carries the receiver at 16, the one at 72 the
receiver at 32, and the one at 80 carries no receiver. -/
def machine0 : Machine :=
  { userData := fun _ => 0
    handleOf := fun _ => 0
    payload := fun a => if a = 64 then ⟨16⟩ else if a = 72 then ⟨32⟩ else ⟨0⟩
    classes := [] }

def world0 : World := ⟨machine0, []⟩

/-- A system double: the registry is a list, `CreateWindowEx` hands out `H_OK`
without dispatching anything, the receiver answers every message with 1 and
the default handler with 0. -/
def fakeOS : Env :=
  { ClassName := some "t_cls"
    HandleMessage := fun _ _ _ _ m => (1, m)
    GetModuleHandle := fun _ => 4194304
    sizeof_WNDCLASSEX := 80
    GetClassInfoEx := fun hInstance name reg =>
      reg.find? (fun c => decide (c.hInstance = hInstance ∧ c.lpszClassName = name))
    RegisterClassEx := fun wcx reg => (49152, reg ++ [wcx])
    CreateWindowEx := fun _ m => (H_OK, m)
    ShowWindow := fun _ _ m => (0, m)
    DefWindowProc := fun _ _ _ _ m => (0, m) }

/-- A `CreateWindowEx` that follows the creation protocol: it lays the payload
out at `lp`, sends `WM_NCCREATE` for `hNew` through `WindowProc`, and returns
`hNew` unless the procedure answered 0 or faulted. -/
def deliverCreate (env : Env) (hNew : HWND) (lp : LPARAM) (args : CreateWindowExArgs)
    (m : Machine) : HWND × Machine :=
  let m1 : Machine := m.setPayload lp ⟨args.lpParam⟩
  match WindowProc env hNew WM_NCCREATE 0 lp ⟨m1, []⟩ with
  | Except.ok (res, w) => if res = 0 then (0, w.m) else (hNew, w.m)
  | Except.error _ => (0, m1)

/-- The double `fakeOS` with a `CreateWindowEx` that follows the protocol. -/
def protocolOS : Env :=
  { fakeOS with CreateWindowEx := deliverCreate fakeOS H_OK 64 }

/-- The double `fakeOS` with a receiver that overwrites its own `Handle`. -/
def noisyOS : Env :=
  { fakeOS with HandleMessage := fun p _ _ _ m => (1, m.setHandle p 99) }


/-! ## The dispatcher -/

theorem WindowProc_create_eq (env : Env) (h : HWND) (wp : WPARAM) (lp : LPARAM) (w : World)
    (hlp : lp ≠ 0) (hr : (w.m.payload lp).lpCreateParams ≠ 0) :
    WindowProc env h WM_NCCREATE wp lp w =
      Except.ok
        ((env.HandleMessage (w.m.payload lp).lpCreateParams WM_NCCREATE wp lp
            ((w.m.setUserData h (w.m.payload lp).lpCreateParams).setHandle
              (w.m.payload lp).lpCreateParams h)).1,
         { m := (env.HandleMessage (w.m.payload lp).lpCreateParams WM_NCCREATE wp lp
              ((w.m.setUserData h (w.m.payload lp).lpCreateParams).setHandle
                (w.m.payload lp).lpCreateParams h)).2
           trace := w.trace ++
             [Call.SetWindowLongPtr h GWLP_USERDATA (w.m.payload lp).lpCreateParams,
              Call.HandleMessage (w.m.payload lp).lpCreateParams WM_NCCREATE wp lp] }) := by
  simp [WindowProc, hlp, hr, SetWindowLongPtr, World.call]

theorem WindowProc_other_eq (env : Env) (h : HWND) (msg : UINT) (wp : WPARAM) (lp : LPARAM)
    (w : World) (hmsg : msg ≠ WM_NCCREATE) :
    WindowProc env h msg wp lp w =
      if w.m.userData h ≠ 0 then
        Except.ok ((env.HandleMessage (w.m.userData h) msg wp lp w.m).1,
          { m := (env.HandleMessage (w.m.userData h) msg wp lp w.m).2
            trace := w.trace ++ [Call.GetWindowLongPtr h GWLP_USERDATA,
              Call.HandleMessage (w.m.userData h) msg wp lp] })
      else
        Except.ok ((env.DefWindowProc h msg wp lp w.m).1,
          { m := (env.DefWindowProc h msg wp lp w.m).2
            trace := w.trace ++ [Call.GetWindowLongPtr h GWLP_USERDATA,
              Call.DefWindowProc h msg wp lp] }) := by
  by_cases hs : w.m.userData h = 0 <;>
    simp [WindowProc, hmsg, hs, GetWindowLongPtr, World.call]

/-- C1. Bind on creation message: when the creation payload at `lp` carries a
non-null receiver `r`, `WindowProc h WM_NCCREATE wp lp` returns; the machine it
hands to `r.HandleMessage` is the incoming one with the slot of `h` holding `r`
and `r.Handle` equal to `h`; it calls `HandleMessage` exactly once, with
`(WM_NCCREATE, wp, lp)`, after its one `SetWindowLongPtr` call; and its result
and final machine are what that `HandleMessage` call returned. -/
theorem WindowProc_binds_on_creation (env : Env) (h : HWND) (wp : WPARAM) (lp : LPARAM)
    (r : Ptr) (w : World)
    (hlp : lp ≠ 0) (hpay : (w.m.payload lp).lpCreateParams = r) (hr : r ≠ 0) :
    ((w.m.setUserData h r).setHandle r h).userData h = r ∧
    ((w.m.setUserData h r).setHandle r h).handleOf r = h ∧
    (∀ h', h' ≠ h → ((w.m.setUserData h r).setHandle r h).userData h' = w.m.userData h') ∧
    (∀ p, p ≠ r → ((w.m.setUserData h r).setHandle r h).handleOf p = w.m.handleOf p) ∧
    WindowProc env h WM_NCCREATE wp lp w =
      Except.ok
        ((env.HandleMessage r WM_NCCREATE wp lp ((w.m.setUserData h r).setHandle r h)).1,
         { m := (env.HandleMessage r WM_NCCREATE wp lp
              ((w.m.setUserData h r).setHandle r h)).2
           trace := w.trace ++ [Call.SetWindowLongPtr h GWLP_USERDATA r,
             Call.HandleMessage r WM_NCCREATE wp lp] }) := by
  subst hpay
  refine ⟨?_, ?_, ?_, ?_, ?_⟩
  · simp [Machine.setUserData, Machine.setHandle]
  · simp [Machine.setUserData, Machine.setHandle]
  · intro h' hh
    simp [Machine.setUserData, Machine.setHandle, Function.update, hh]
  · intro p hp
    simp [Machine.setUserData, Machine.setHandle, Function.update, hp]
  · exact WindowProc_create_eq env h wp lp w hlp hr

/-- Instance of C1 on the double: the payload at 64 carries the receiver at 16,
and the receiver of the double leaves the machine as it finds it. -/
theorem WindowProc_binds_on_creation_witness :
    ((machine0.setUserData H_OK 16).setHandle 16 H_OK).userData H_OK = 16 ∧
    ((machine0.setUserData H_OK 16).setHandle 16 H_OK).handleOf 16 = H_OK ∧
    WindowProc fakeOS H_OK WM_NCCREATE 0 64 world0 =
      Except.ok (1,
        { m := (machine0.setUserData H_OK 16).setHandle 16 H_OK
          trace := [Call.SetWindowLongPtr H_OK GWLP_USERDATA 16,
            Call.HandleMessage 16 WM_NCCREATE 0 64] }) :=
  have key := WindowProc_binds_on_creation fakeOS H_OK 0 64 16 world0
    (by decide) rfl (by decide)
  ⟨key.1, key.2.1, key.2.2.2.2⟩

/-- C2. Forward after binding: when the slot of `h` holds a non-null receiver
`r` and the message is not the creation message, `WindowProc` reads the slot,
calls `r.HandleMessage` exactly once with exactly `(msg, wp, lp)` on the
unchanged machine, makes no `DefWindowProc` call, and returns the receiver's
result, whatever its value. -/
theorem WindowProc_forwards_when_bound (env : Env) (h : HWND) (msg : UINT) (wp : WPARAM)
    (lp : LPARAM) (r : Ptr) (w : World)
    (hmsg : msg ≠ WM_NCCREATE) (hslot : w.m.userData h = r) (hr : r ≠ 0) :
    WindowProc env h msg wp lp w =
      Except.ok ((env.HandleMessage r msg wp lp w.m).1,
        { m := (env.HandleMessage r msg wp lp w.m).2
          trace := w.trace ++ [Call.GetWindowLongPtr h GWLP_USERDATA,
            Call.HandleMessage r msg wp lp] }) := by
  subst hslot
  rw [WindowProc_other_eq env h msg wp lp w hmsg, if_pos hr]

/-- Instance of C2 on the double, with the slot of `H_OK` holding the receiver
at 16 and a receiver that answers -1. -/
theorem WindowProc_forwards_when_bound_witness :
    WindowProc { fakeOS with HandleMessage := fun _ _ _ _ m => (-1, m) } H_OK 5 7 9
        ⟨machine0.setUserData H_OK 16, []⟩ =
      Except.ok (-1,
        { m := machine0.setUserData H_OK 16
          trace := [Call.GetWindowLongPtr H_OK GWLP_USERDATA, Call.HandleMessage 16 5 7 9] }) :=
  WindowProc_forwards_when_bound { fakeOS with HandleMessage := fun _ _ _ _ m => (-1, m) }
    H_OK 5 7 9 16 ⟨machine0.setUserData H_OK 16, []⟩ (by decide) rfl (by decide)

/-- C3. Unbound message goes to default: when the slot of `h` is empty and the
message is not the creation message, `WindowProc` reads the slot, calls
`DefWindowProc(h, msg, wp, lp)` once on the unchanged machine, calls no
receiver method, and returns the default handler's result. -/
theorem WindowProc_defaults_when_unbound (env : Env) (h : HWND) (msg : UINT) (wp : WPARAM)
    (lp : LPARAM) (w : World)
    (hmsg : msg ≠ WM_NCCREATE) (hslot : w.m.userData h = 0) :
    WindowProc env h msg wp lp w =
      Except.ok ((env.DefWindowProc h msg wp lp w.m).1,
        { m := (env.DefWindowProc h msg wp lp w.m).2
          trace := w.trace ++ [Call.GetWindowLongPtr h GWLP_USERDATA,
            Call.DefWindowProc h msg wp lp] }) := by
  rw [WindowProc_other_eq env h msg wp lp w hmsg, if_neg (by simpa using hslot)]

/-- Instance of C3 on the double, whose slots are all empty. -/
theorem WindowProc_defaults_when_unbound_witness :
    WindowProc fakeOS H_OK 5 7 9 world0 =
      Except.ok (0,
        { m := machine0
          trace := [Call.GetWindowLongPtr H_OK GWLP_USERDATA, Call.DefWindowProc H_OK 5 7 9] }) :=
  WindowProc_defaults_when_unbound fakeOS H_OK 5 7 9 world0 (by decide) rfl

/-- C8. On the creation message whose payload (at address 80 of the double)
carries a null user pointer, `WindowProc` does not reach the default handler:
it dereferences the null pointer (`Instance->Handle = Handle`) before its null
test. -/
theorem WindowProc_null_payload_faults :
    (machine0.payload 80).lpCreateParams = 0 ∧
    WindowProc fakeOS H_OK WM_NCCREATE 0 80 world0 = Except.error Fault.nullDereference := by
  constructor
  · rfl
  · simp [WindowProc, world0, machine0]

/-! ## The creation and show passthroughs -/

/-- C4. Create result law: `Create` returns `TRUE` exactly when `CreateWindowEx`
returned a non-null handle, and `FALSE` exactly when it returned null; after
the call the receiver's `Handle` is the returned handle, whatever the system
and the dispatcher did to it during the call, so it is null exactly when the
system returned null. -/
theorem Create_result_law (env : Env) (this : Ptr) (Params : CreateStruct) (w : World) :
    ((Create env this Params w).1 = TRUE ↔
      (env.CreateWindowEx (createArgs env this Params) w.m).1 ≠ 0) ∧
    ((Create env this Params w).1 = FALSE ↔
      (env.CreateWindowEx (createArgs env this Params) w.m).1 = 0) ∧
    ((Create env this Params w).1 ≠ 0 ↔
      (env.CreateWindowEx (createArgs env this Params) w.m).1 ≠ 0) ∧
    ((env.CreateWindowEx (createArgs env this Params) w.m).1 ≠ 0 ↔
      (Create env this Params w).2.m.handleOf this ≠ 0) ∧
    (Create env this Params w).2.m.handleOf this =
      (env.CreateWindowEx (createArgs env this Params) w.m).1 := by
  have hH : (Create env this Params w).2.m.handleOf this =
      (env.CreateWindowEx (createArgs env this Params) w.m).1 := by
    simp [Create, World.call, Machine.setHandle]
  have hB : (Create env this Params w).1 =
      if (env.CreateWindowEx (createArgs env this Params) w.m).1 ≠ 0 then TRUE else FALSE := by
    simp [Create, World.call, Machine.setHandle]
  rw [hH, hB]
  by_cases h0 : (env.CreateWindowEx (createArgs env this Params) w.m).1 = 0 <;>
    simp [h0, TRUE, FALSE]

/-- C6. Create argument passthrough: `Create` makes exactly one external call,
`CreateWindowEx`, with `ExStyle`, the class name, `Name`, `Style` (as the
`DWORD` of the same 32-bit pattern), `X`, `Y`, `Width`, `Height`, `Parent`,
`Menu`, the current module handle and the receiver's own address; a record
built from the title alone has the `CW_USEDEFAULT` sentinel in position and
size, null parent and menu, the `WS_OVERLAPPEDWINDOW` style and extended
style 0, and they reach the call as those values. -/
theorem Create_passes_arguments (env : Env) (this : Ptr) (Params : CreateStruct) (w : World)
    (title : LPCTSTR) :
    (Create env this Params w).2.trace = w.trace ++
      [Call.CreateWindowEx
        ⟨Params.ExStyle, env.ClassName, Params.Name, toDWORD Params.Style,
         Params.X, Params.Y, Params.Width, Params.Height, Params.Parent, Params.Menu,
         env.GetModuleHandle none, this⟩] ∧
    ((toDWORD Params.Style : Int) = Params.Style % 4294967296) ∧
    ({ Name := title } : CreateStruct) =
      ⟨title, CW_USEDEFAULT, CW_USEDEFAULT, CW_USEDEFAULT, CW_USEDEFAULT, 0,
        WS_OVERLAPPEDWINDOW, 0, 0⟩ ∧
    (Create env this { Name := title } w).2.trace = w.trace ++
      [Call.CreateWindowEx
        ⟨0, env.ClassName, title, 13565952, -2147483648, -2147483648, -2147483648,
         -2147483648, 0, 0, env.GetModuleHandle none, this⟩] := by
  refine ⟨?_, ?_, rfl, ?_⟩
  · simp [Create, World.call, createArgs]
  · unfold toDWORD
    exact Int.toNat_of_nonneg (Int.emod_nonneg _ (by decide))
  · simp [Create, World.call, createArgs, toDWORD, WS_OVERLAPPEDWINDOW, CW_USEDEFAULT]

/-! ## The slot frame -/

theorem slotWrites_append (t u : List Call) :
    slotWrites (t ++ u) = slotWrites t ++ slotWrites u := by
  induction t with
  | nil => rfl
  | cons c t ih => cases c <;> simp [slotWrites, ih]

theorem registerCalls_append (t u : List Call) :
    registerCalls (t ++ u) = registerCalls t + registerCalls u := by
  induction t with
  | nil => simp [registerCalls]
  | cons c t ih =>
    cases c
    all_goals simp [registerCalls, ih]
    all_goals omega

theorem WindowBase_absent_eq (env : Env) (this : Ptr) (w : World)
    (hq : env.GetClassInfoEx (env.GetModuleHandle none) env.ClassName w.m.classes = none) :
    WindowBase env this w =
      { m := { w.m.setHandle this 0 with
          classes := (env.RegisterClassEx (classDescriptor env) w.m.classes).2 }
        trace := w.trace ++ [Call.GetClassInfoEx (env.GetModuleHandle none) env.ClassName,
          Call.RegisterClassEx (classDescriptor env)] } := by
  have hc : (w.m.setHandle this 0).classes = w.m.classes := rfl
  unfold WindowBase
  simp only [hc, hq, List.append_assoc, List.singleton_append]

theorem WindowBase_present_eq (env : Env) (this : Ptr) (w : World) (c : WNDCLASSEX)
    (hq : env.GetClassInfoEx (env.GetModuleHandle none) env.ClassName w.m.classes = some c) :
    WindowBase env this w =
      { m := w.m.setHandle this 0
        trace := w.trace ++ [Call.GetClassInfoEx (env.GetModuleHandle none) env.ClassName] } := by
  have hc : (w.m.setHandle this 0).classes = w.m.classes := rfl
  unfold WindowBase
  simp only [hc, hq]

theorem WindowBase_handleOf (env : Env) (this : Ptr) (w : World) :
    (WindowBase env this w).m.handleOf = Function.update w.m.handleOf this 0 := by
  cases hq : env.GetClassInfoEx (env.GetModuleHandle none) env.ClassName w.m.classes with
  | none => rw [WindowBase_absent_eq env this w hq]; rfl
  | some c => rw [WindowBase_present_eq env this w c hq]; rfl

/-- C9. Slot frame. From any state: the constructor, `Create` and `Show` make
no slot write, and their own effect on the machine is at most the receiver's
`Handle` member and the class registry; on a message other than the creation
message `WindowProc` returns, makes no slot write, and its final machine is
exactly what the one callback it ran (`HandleMessage` or `DefWindowProc`)
returned from the unchanged incoming machine; on a creation message for `h`
with a non-null receiver it returns after a single slot write, to `h`, and
the machine it hands to `HandleMessage` has every other slot unchanged. -/
theorem slot_frame (env : Env) (w : World) :
    (∀ this, slotWrites (WindowBase env this w).trace = slotWrites w.trace ∧
      (WindowBase env this w).m.userData = w.m.userData) ∧
    (∀ this Params, slotWrites (Create env this Params w).2.trace = slotWrites w.trace ∧
      (Create env this Params w).2.m.userData =
        (env.CreateWindowEx (createArgs env this Params) w.m).2.userData) ∧
    (∀ this CmdShow, slotWrites (Show env this CmdShow w).2.trace = slotWrites w.trace ∧
      (Show env this CmdShow w).2.m = (env.ShowWindow (w.m.handleOf this) CmdShow w.m).2) ∧
    (∀ h msg wp lp, msg ≠ WM_NCCREATE →
      ∃ res w', WindowProc env h msg wp lp w = Except.ok (res, w') ∧
        slotWrites w'.trace = slotWrites w.trace ∧
        (w'.m = (env.HandleMessage (w.m.userData h) msg wp lp w.m).2 ∨
         w'.m = (env.DefWindowProc h msg wp lp w.m).2)) ∧
    (∀ h wp lp, lp ≠ 0 → (w.m.payload lp).lpCreateParams ≠ 0 →
      ∃ res w' m1, WindowProc env h WM_NCCREATE wp lp w = Except.ok (res, w') ∧
        slotWrites w'.trace = slotWrites w.trace ++ [h] ∧
        (∀ h', h' ≠ h → m1.userData h' = w.m.userData h') ∧
        w'.m = (env.HandleMessage (w.m.payload lp).lpCreateParams WM_NCCREATE wp lp m1).2) := by
  refine ⟨?_, ?_, ?_, ?_, ?_⟩
  · intro this
    cases hq : env.GetClassInfoEx (env.GetModuleHandle none) env.ClassName w.m.classes with
    | none =>
      rw [WindowBase_absent_eq env this w hq]
      simp [slotWrites_append, slotWrites, Machine.setHandle]
    | some c =>
      rw [WindowBase_present_eq env this w c hq]
      simp [slotWrites_append, slotWrites, Machine.setHandle]
  · intro this Params
    simp [Create, World.call, slotWrites_append, slotWrites, Machine.setHandle]
  · intro this CmdShow
    simp [Show, World.call, slotWrites_append, slotWrites]
  · intro h msg wp lp hmsg
    rw [WindowProc_other_eq env h msg wp lp w hmsg]
    by_cases hs : w.m.userData h = 0
    · rw [if_neg (by simpa using hs)]
      exact ⟨_, _, rfl, by simp [slotWrites_append, slotWrites], Or.inr rfl⟩
    · rw [if_pos hs]
      exact ⟨_, _, rfl, by simp [slotWrites_append, slotWrites], Or.inl rfl⟩
  · intro h wp lp hlp hr
    refine ⟨_, _, (w.m.setUserData h (w.m.payload lp).lpCreateParams).setHandle
      (w.m.payload lp).lpCreateParams h, WindowProc_create_eq env h wp lp w hlp hr, ?_, ?_, rfl⟩
    · simp [slotWrites_append, slotWrites]
    · intro h' hh
      simp [Machine.setUserData, Machine.setHandle, Function.update, hh]

/-- Instance of C9 on the double: an ordinary message and the creation message
for `H_OK` whose payload at 64 carries the receiver at 16. -/
theorem slot_frame_witness :
    (∃ res w', WindowProc fakeOS H_OK 5 7 9 world0 = Except.ok (res, w') ∧
        slotWrites w'.trace = slotWrites world0.trace ∧
        (w'.m = (fakeOS.HandleMessage (world0.m.userData H_OK) 5 7 9 world0.m).2 ∨
         w'.m = (fakeOS.DefWindowProc H_OK 5 7 9 world0.m).2)) ∧
    (∃ res w' m1, WindowProc fakeOS H_OK WM_NCCREATE 0 64 world0 = Except.ok (res, w') ∧
        slotWrites w'.trace = slotWrites world0.trace ++ [H_OK] ∧
        (∀ h', h' ≠ H_OK → m1.userData h' = world0.m.userData h') ∧
        w'.m = (fakeOS.HandleMessage (world0.m.payload 64).lpCreateParams
          WM_NCCREATE 0 64 m1).2) :=
  ⟨(slot_frame fakeOS world0).2.2.2.1 H_OK 5 7 9 (by decide),
   (slot_frame fakeOS world0).2.2.2.2 H_OK 0 64 (by decide) (by decide)⟩

/-! ## The class registrar -/

theorem classCount_append (hI : HINSTANCE) (name : LPCTSTR) (reg : List WNDCLASSEX)
    (d : WNDCLASSEX) (hd : d.hInstance = hI ∧ d.lpszClassName = name) :
    classCount hI name (reg ++ [d]) = classCount hI name reg + 1 := by
  simp [classCount, List.filter_append, hd]

/-- C10 as amended. Registrar descriptor: when the query finds no class, the
constructor submits to `RegisterClassEx`, right after its query, the descriptor
whose `cbSize` is the size of `WNDCLASSEX`, whose class name is `ClassName`,
whose procedure is `WindowProc`, whose module is the current module handle, and
whose other eight members are zero or null; the constructed receiver's
`Handle` is null. -/
theorem WindowBase_registers_descriptor (env : Env) (this : Ptr) (w : World)
    (hq : env.GetClassInfoEx (env.GetModuleHandle none) env.ClassName w.m.classes = none) :
    (WindowBase env this w).trace = w.trace ++
      [Call.GetClassInfoEx (env.GetModuleHandle none) env.ClassName,
       Call.RegisterClassEx
        ⟨env.sizeof_WNDCLASSEX, 0, WNDPROC.WindowProc, 0, 0, env.GetModuleHandle none,
         0, 0, 0, none, env.ClassName, 0⟩] ∧
    (WindowBase env this w).m.handleOf this = 0 := by
  rw [WindowBase_absent_eq env this w hq]
  exact ⟨rfl, by simp [Machine.setHandle]⟩

/-- Instance of amended C10 on the double, starting from the empty registry. -/
theorem WindowBase_registers_descriptor_witness :
    (WindowBase fakeOS 16 world0).trace = world0.trace ++
      [Call.GetClassInfoEx (fakeOS.GetModuleHandle none) fakeOS.ClassName,
       Call.RegisterClassEx
        ⟨fakeOS.sizeof_WNDCLASSEX, 0, WNDPROC.WindowProc, 0, 0, fakeOS.GetModuleHandle none,
         0, 0, 0, none, fakeOS.ClassName, 0⟩] ∧
    (WindowBase fakeOS 16 world0).m.handleOf 16 = 0 :=
  WindowBase_registers_descriptor fakeOS 16 world0 rfl

/-- C10 as stated fails: on the double, with no class registered, the
descriptor with only class name, procedure and module set and all else zero is
not what the constructor submits; the submitted one has `cbSize` 80. -/
theorem WindowBase_descriptor_has_size :
    fakeOS.GetClassInfoEx (fakeOS.GetModuleHandle none) fakeOS.ClassName
      world0.m.classes = none ∧
    (WindowBase fakeOS 16 world0).trace =
      [Call.GetClassInfoEx 4194304 (some "t_cls"),
       Call.RegisterClassEx
        ⟨80, 0, WNDPROC.WindowProc, 0, 0, 4194304, 0, 0, 0, none, some "t_cls", 0⟩] ∧
    Call.RegisterClassEx
        ⟨0, 0, WNDPROC.WindowProc, 0, 0, 4194304, 0, 0, 0, none, some "t_cls", 0⟩ ∉
      (WindowBase fakeOS 16 world0).trace := by
  have ht : (WindowBase fakeOS 16 world0).trace =
      [Call.GetClassInfoEx 4194304 (some "t_cls"),
       Call.RegisterClassEx
        ⟨80, 0, WNDPROC.WindowProc, 0, 0, 4194304, 0, 0, 0, none, some "t_cls", 0⟩] := rfl
  refine ⟨rfl, ht, ?_⟩
  rw [ht]
  decide

theorem fakeOS_query_faithful (hI : HINSTANCE) (name : LPCTSTR) (reg : List WNDCLASSEX) :
    (fakeOS.GetClassInfoEx hI name reg).isSome ↔ 0 < classCount hI name reg := by
  simp [fakeOS, classCount, List.find?_isSome, List.length_pos, List.filter_eq_nil_iff]

/-- C5. Registration idempotence: a construction makes one `RegisterClassEx`
call exactly when its query `GetClassInfoEx(module, ClassName)` finds no class,
and none exactly when the query finds one; hence, starting with no class of
that name for the module, with a query that reflects the registry and a first
registration that succeeds, two constructions in sequence make exactly one
`RegisterClassEx` call and leave exactly one class of that name registered. -/
theorem registration_idempotent (env : Env) (this1 this2 : Ptr) (w : World) :
    (registerCalls (WindowBase env this1 w).trace = registerCalls w.trace + 1 ↔
      env.GetClassInfoEx (env.GetModuleHandle none) env.ClassName w.m.classes = none) ∧
    (registerCalls (WindowBase env this1 w).trace = registerCalls w.trace ↔
      (env.GetClassInfoEx (env.GetModuleHandle none) env.ClassName w.m.classes).isSome) ∧
    (classCount (env.GetModuleHandle none) env.ClassName w.m.classes = 0 →
      (∀ reg, (env.GetClassInfoEx (env.GetModuleHandle none) env.ClassName reg).isSome ↔
        0 < classCount (env.GetModuleHandle none) env.ClassName reg) →
      (env.RegisterClassEx (classDescriptor env) w.m.classes).1 ≠ 0 →
      (env.RegisterClassEx (classDescriptor env) w.m.classes).2 =
        w.m.classes ++ [classDescriptor env] →
      registerCalls (WindowBase env this2 (WindowBase env this1 w)).trace =
        registerCalls w.trace + 1 ∧
      classCount (env.GetModuleHandle none) env.ClassName
        (WindowBase env this2 (WindowBase env this1 w)).m.classes = 1) := by
  refine ⟨?_, ?_, ?_⟩
  · cases hq : env.GetClassInfoEx (env.GetModuleHandle none) env.ClassName w.m.classes with
    | none =>
      rw [WindowBase_absent_eq env this1 w hq]
      simp [registerCalls_append, registerCalls]
    | some c =>
      rw [WindowBase_present_eq env this1 w c hq]
      simp [registerCalls_append, registerCalls]
  · cases hq : env.GetClassInfoEx (env.GetModuleHandle none) env.ClassName w.m.classes with
    | none =>
      rw [WindowBase_absent_eq env this1 w hq]
      simp [registerCalls_append, registerCalls]
    | some c =>
      rw [WindowBase_present_eq env this1 w c hq]
      simp [registerCalls_append, registerCalls]
  · intro h0 hfaith _ hreg
    have hq1 : env.GetClassInfoEx (env.GetModuleHandle none) env.ClassName w.m.classes
        = none := by
      have := hfaith w.m.classes
      rw [h0] at this
      cases hq : env.GetClassInfoEx (env.GetModuleHandle none) env.ClassName w.m.classes with
      | none => rfl
      | some c => rw [hq] at this; simp at this
    have hcount : classCount (env.GetModuleHandle none) env.ClassName
        (w.m.classes ++ [classDescriptor env]) = 1 := by
      rw [classCount_append (env.GetModuleHandle none) env.ClassName w.m.classes
        (classDescriptor env) ⟨rfl, rfl⟩, h0]
    rw [WindowBase_absent_eq env this1 w hq1, hreg]
    have hsome := (hfaith (w.m.classes ++ [classDescriptor env])).2 (by rw [hcount]; decide)
    obtain ⟨c, hc⟩ := Option.isSome_iff_exists.1 hsome
    rw [WindowBase_present_eq env this2 _ c (by simpa [Machine.setHandle] using hc)]
    refine ⟨?_, ?_⟩
    · simp [registerCalls_append, registerCalls]
    · simpa [Machine.setHandle] using hcount

/-- Instance of C5 on the double: two receivers, at 16 and 32, constructed
from the empty registry. -/
theorem registration_idempotent_witness :
    registerCalls (WindowBase fakeOS 32 (WindowBase fakeOS 16 world0)).trace =
        registerCalls world0.trace + 1 ∧
    classCount (fakeOS.GetModuleHandle none) fakeOS.ClassName
        (WindowBase fakeOS 32 (WindowBase fakeOS 16 world0)).m.classes = 1 :=
  (registration_idempotent fakeOS 16 32 world0).2.2 rfl
    (fun reg => fakeOS_query_faithful _ _ reg) (by decide) rfl

/-! ## Bound identity -/

theorem BoundIdentity_of_quiet (m m' : Machine) (hq : Quiet m m') (hb : BoundIdentity m) :
    BoundIdentity m' := by
  intro r hr hh
  rw [hq.1, hq.2] at *
  exact hb r hr hh

theorem BoundIdentity_init (m : Machine) (h0 : ∀ p, m.handleOf p = 0) : BoundIdentity m := by
  intro r _ hh
  exact absurd (h0 r) hh

theorem BoundIdentity_clear (m : Machine) (this : Ptr) (hb : BoundIdentity m) :
    BoundIdentity (m.setHandle this 0) := by
  intro r hr hh
  by_cases hrt : r = this
  · subst hrt
    simp [Machine.setHandle] at hh
  · simp only [Machine.setHandle, Function.update_noteq hrt] at hh ⊢
    exact hb r hr hh

theorem BoundIdentity_bind (m : Machine) (h : HWND) (r0 : Ptr) (hb : BoundIdentity m)
    (hfresh : Unheld m h r0) :
    BoundIdentity ((m.setUserData h r0).setHandle r0 h) := by
  intro r hr hh
  by_cases hrt : r = r0
  · subst hrt
    simp [Machine.setHandle, Machine.setUserData]
  · simp only [Machine.setHandle, Machine.setUserData, Function.update_noteq hrt] at hh ⊢
    by_cases hh' : m.handleOf r = h
    · exact absurd (hh' ▸ hfresh r hr hrt hh') hh
    · rw [Function.update_noteq hh']
      exact hb r hr hh

theorem BoundIdentity_stamp (m : Machine) (this : Ptr) (h : HWND) (hb : BoundIdentity m)
    (hslot : h ≠ 0 → m.userData h = this) :
    BoundIdentity (m.setHandle this h) := by
  intro r hr hh
  by_cases hrt : r = this
  · subst hrt
    simp only [Machine.setHandle, Function.update_same] at hh ⊢
    exact hslot hh
  · simp only [Machine.setHandle, Function.update_noteq hrt] at hh ⊢
    exact hb r hr hh

/-- A creation dispatch that returns had a non-null payload pointer carrying a
non-null receiver, and its final machine is what `HandleMessage` returned from
the machine with the slot and the `Handle` written. -/
theorem WindowProc_create_ok (env : Env) (h : HWND) (wp : WPARAM) (lp : LPARAM) (w : World)
    (res : LRESULT) (w' : World)
    (hok : WindowProc env h WM_NCCREATE wp lp w = Except.ok (res, w')) :
    lp ≠ 0 ∧ (w.m.payload lp).lpCreateParams ≠ 0 ∧
    w'.m = (env.HandleMessage (w.m.payload lp).lpCreateParams WM_NCCREATE wp lp
      ((w.m.setUserData h (w.m.payload lp).lpCreateParams).setHandle
        (w.m.payload lp).lpCreateParams h)).2 := by
  by_cases hlp : lp = 0
  · simp [WindowProc, hlp] at hok
  · by_cases hr : (w.m.payload lp).lpCreateParams = 0
    · simp [WindowProc, hlp, hr] at hok
    · rw [WindowProc_create_eq env h wp lp w hlp hr] at hok
      injection hok with hok
      injection hok with _ hw
      exact ⟨hlp, hr, by rw [← hw]⟩

/-- A dispatch of a message other than the creation message ends in the
machine returned by one of the two callbacks, run on the incoming machine. -/
theorem WindowProc_other_ok (env : Env) (h : HWND) (msg : UINT) (wp : WPARAM) (lp : LPARAM)
    (w : World) (res : LRESULT) (w' : World) (hmsg : msg ≠ WM_NCCREATE)
    (hok : WindowProc env h msg wp lp w = Except.ok (res, w')) :
    w'.m = (env.HandleMessage (w.m.userData h) msg wp lp w.m).2 ∨
    w'.m = (env.DefWindowProc h msg wp lp w.m).2 := by
  rw [WindowProc_other_eq env h msg wp lp w hmsg] at hok
  by_cases hs : w.m.userData h = 0
  · rw [if_neg (by simpa using hs)] at hok
    injection hok with hok
    injection hok with _ hw
    exact Or.inr (by rw [← hw])
  · rw [if_pos hs] at hok
    injection hok with hok
    injection hok with _ hw
    exact Or.inl (by rw [← hw])

/-- C7 as amended. Bound-identity invariant: when the callbacks
(`HandleMessage`, `DefWindowProc`, `ShowWindow`) leave slots and `Handle`
members unchanged, then in every state reached, from one in which no receiver
holds a handle, by default construction, copies of receivers whose `Handle` is
null, `Show`, dispatcher calls whose creation messages are for a handle no
other receiver holds, and `Create` calls whose `CreateWindowEx` delivers the
creation message for such a handle through the dispatcher and returns that
handle or null, every receiver with a non-null `Handle` is the content of that
handle's slot. -/
theorem boundIdentity_of_reach (env : Env) (m : Machine) (hquiet : QuietCallbacks env)
    (hreach : Reach env m) : BoundIdentity m := by
  induction hreach with
  | init m h0 => exact BoundIdentity_init m h0
  | construct m this t _ ih =>
    refine BoundIdentity_of_quiet (m.setHandle this 0) _ ?_ (BoundIdentity_clear m this ih)
    cases hq : env.GetClassInfoEx (env.GetModuleHandle none) env.ClassName m.classes with
    | none => rw [WindowBase_absent_eq env this ⟨m, t⟩ hq]; exact ⟨rfl, rfl⟩
    | some c => rw [WindowBase_present_eq env this ⟨m, t⟩ c hq]; exact ⟨rfl, rfl⟩
  | copy m this other t _ h0 ih =>
    have hm : (WindowBase_copy this other ⟨m, t⟩).m = m.setHandle this 0 := by
      simp [WindowBase_copy, h0]
    rw [hm]
    exact BoundIdentity_clear m this ih
  | display m this CmdShow t _ ih =>
    have hm : (Show env this CmdShow ⟨m, t⟩).2.m
        = (env.ShowWindow (m.handleOf this) CmdShow m).2 := by
      simp [Show, World.call]
    rw [hm]
    exact BoundIdentity_of_quiet m _ (hquiet.2.2 _ _ m) ih
  | dispatch m Handle Message WParam LParam t res w' _ hok hfresh ih =>
    by_cases hmsg : Message = WM_NCCREATE
    · subst hmsg
      obtain ⟨_, _, hw⟩ := WindowProc_create_ok env Handle WParam LParam ⟨m, t⟩ res w' hok
      rw [hw]
      exact BoundIdentity_of_quiet _ _ (hquiet.1 _ _ _ _ _)
        (BoundIdentity_bind m Handle _ ih (hfresh rfl))
    · rcases WindowProc_other_ok env Handle Message WParam LParam ⟨m, t⟩ res w' hmsg hok
        with hw | hw
      · rw [hw]
        exact BoundIdentity_of_quiet m _ (hquiet.1 _ _ _ _ m) ih
      · rw [hw]
        exact BoundIdentity_of_quiet m _ (hquiet.2.1 _ _ _ _ m) ih
  | create m this Params t _ hdel ih =>
    obtain ⟨hNew, wp, lp, res, w1, hfresh, hok, hq, hret⟩ := hdel
    obtain ⟨_, _, hw⟩ := WindowProc_create_ok env hNew wp lp _ res w1 hok
    have hpay : ((m.setPayload lp ⟨(createArgs env this Params).lpParam⟩).payload
        lp).lpCreateParams = this := by
      simp only [Machine.setPayload, Function.update_same]
      rfl
    simp only [hpay] at hw
    have hargs : (createArgs env this Params).lpParam = this := rfl
    rw [hargs] at hfresh
    -- the machine the dispatcher hands to `HandleMessage`
    have hb1 := BoundIdentity_bind (m.setPayload lp ⟨(createArgs env this Params).lpParam⟩)
      hNew this (BoundIdentity_of_quiet m _ ⟨rfl, rfl⟩ ih) hfresh
    have hq1 := hquiet.1 this WM_NCCREATE wp lp
      (((m.setPayload lp ⟨(createArgs env this Params).lpParam⟩).setUserData hNew
        this).setHandle this hNew)
    have hb2 : BoundIdentity w1.m := by
      rw [hw]
      exact BoundIdentity_of_quiet _ _ hq1 hb1
    have hb3 := BoundIdentity_of_quiet _ _ hq hb2
    have hslot : (env.CreateWindowEx (createArgs env this Params) m).1 ≠ 0 →
        (env.CreateWindowEx (createArgs env this Params) m).2.userData
          (env.CreateWindowEx (createArgs env this Params) m).1 = this := by
      intro hne
      rcases hret with heq | h0
      · rw [heq, hq.1, hw, hq1.1]
        simp [Machine.setUserData, Machine.setHandle]
      · exact absurd h0 hne
    exact BoundIdentity_stamp _ this _ hb3 hslot

/-- Instance of amended C7 on the protocol-following double: the receiver at
16 is constructed and then created, which binds it to `H_OK` through the
creation message sent by `CreateWindowEx`, and an ordinary message for `H_OK`
is then dispatched to it. -/
theorem boundIdentity_of_reach_witness :
    ∃ w, run protocolOS [Op.WindowBase 16, Op.Create 16 { Name := some "hi" },
        Op.WindowProc H_OK 5 7 9] world0 = Except.ok w ∧
      w.m.handleOf 16 = H_OK ∧ w.m.userData H_OK = 16 ∧ BoundIdentity w.m :=
  have hA : Reach protocolOS (WindowBase protocolOS 16 world0).m :=
    Reach.construct machine0 16 [] (Reach.init machine0 (fun _ => rfl))
  have hD : DeliversCreation protocolOS (createArgs protocolOS 16 { Name := some "hi" })
      (WindowBase protocolOS 16 world0).m :=
    ⟨H_OK, 0, 64, 1, _,
      (fun r _ _ hh => by
        rw [WindowBase_handleOf] at hh
        simp [world0, machine0, Function.update, H_OK] at hh),
      rfl, ⟨rfl, rfl⟩, Or.inl rfl⟩
  have hC : Reach protocolOS
      (Create protocolOS 16 { Name := some "hi" } (WindowBase protocolOS 16 world0)).2.m :=
    Reach.create _ 16 { Name := some "hi" } _ hA hD
  ⟨_, rfl, rfl, rfl,
    boundIdentity_of_reach protocolOS _
      ⟨fun _ _ _ _ _ => ⟨rfl, rfl⟩, fun _ _ _ _ _ => ⟨rfl, rfl⟩, fun _ _ _ => ⟨rfl, rfl⟩⟩
      (Reach.dispatch _ H_OK 5 7 9
        (Create protocolOS 16 { Name := some "hi" } (WindowBase protocolOS 16 world0)).2.trace
        1 _ hC rfl (fun h => absurd h (by decide)))⟩

/-- C7 as stated fails, in four ways, each from the state in which no receiver
holds a handle. A `CreateWindowEx` that returns `H_OK` without sending the
creation message leaves the receiver at 16 with `Handle = H_OK` and the slot
of `H_OK` empty. Two creation messages for `H_OK`, for the receivers at 16 and
32, leave the receiver at 16 with `Handle = H_OK` and the slot holding 32. A
receiver that overwrites its own `Handle` with 99 during the creation message
is left with a handle whose slot is empty. A copy, at 32, of the receiver at
16 bound to `H_OK` holds `H_OK` while the slot holds 16. -/
theorem boundIdentity_fails_unguarded :
    (∀ p, world0.m.handleOf p = 0) ∧
    (∃ w, run fakeOS [Op.WindowBase 16, Op.Create 16 { Name := some "hi" }] world0
        = Except.ok w ∧
      w.m.handleOf 16 = H_OK ∧ w.m.userData H_OK = 0 ∧ ¬ BoundIdentity w.m) ∧
    (∃ w, run fakeOS [Op.WindowBase 16, Op.WindowBase 32,
        Op.WindowProc H_OK WM_NCCREATE 0 64, Op.WindowProc H_OK WM_NCCREATE 0 72] world0
        = Except.ok w ∧
      w.m.handleOf 16 = H_OK ∧ w.m.userData H_OK = 32 ∧ ¬ BoundIdentity w.m) ∧
    (∃ w, run noisyOS [Op.WindowBase 16, Op.WindowProc H_OK WM_NCCREATE 0 64] world0
        = Except.ok w ∧
      w.m.handleOf 16 = 99 ∧ w.m.userData 99 = 0 ∧ ¬ BoundIdentity w.m) ∧
    (∃ w, run fakeOS [Op.WindowBase 16, Op.WindowProc H_OK WM_NCCREATE 0 64,
        Op.copy 32 16] world0 = Except.ok w ∧
      w.m.handleOf 32 = H_OK ∧ w.m.userData H_OK = 16 ∧ ¬ BoundIdentity w.m) := by
  refine ⟨fun _ => rfl, ⟨_, rfl, rfl, rfl, ?_⟩, ⟨_, rfl, rfl, rfl, ?_⟩, ⟨_, rfl, rfl, rfl, ?_⟩,
    ⟨_, rfl, rfl, rfl, ?_⟩⟩
  · intro hb
    exact absurd (hb 16 (by decide) (by decide)) (by decide)
  · intro hb
    exact absurd (hb 16 (by decide) (by decide)) (by decide)
  · intro hb
    exact absurd (hb 16 (by decide) (by decide)) (by decide)
  · intro hb
    exact absurd (hb 32 (by decide) (by decide)) (by decide)

end ww
